import Mathlib

/-!
Shallow embedding of the W5500 high-level UDP socket layer
(`src/hl/src/udp.rs`) over a model of the per-socket register file.

Machine integers are modelled as `Nat` with explicit `% 65536` at every
point where the Rust code performs 16-bit wrapping arithmetic
(`u16::wrapping_add`).  The register transport is modelled as infallible:
transport errors are opaque and merely propagated by the code, so no claim
depends on them.  Every operation returns, besides its result, the new
register state and the list of register *writes and commands* it issued,
so that frame conditions ("register X is not written") are directly
expressible as facts about the trace.
-/

namespace W5500

/-- An IPv4 address, four octets. -/
structure Ipv4Addr where
  a : Nat
  b : Nat
  c : Nat
  d : Nat
deriving DecidableEq, Repr

/-- An IPv4 socket address (address and port), as in `w5500_ll::net`. -/
structure SocketAddrV4 where
  ip : Ipv4Addr
  port : Nat
deriving DecidableEq, Repr

/-- W5500 UDP header: origin address and declared payload length.
Embeds `UdpHeader` from `src/hl/src/udp.rs`. -/
structure UdpHeader where
  origin : SocketAddrV4
  len : Nat
deriving DecidableEq, Repr

/-- Size of the per-datagram header the W5500 prepends on receive. -/
def UdpHeader.LEN : Nat := 8

/-- Deserialize a UDP header from 8 bytes: 4 bytes origin IP, 2 bytes
origin port (big-endian), 2 bytes length (big-endian).
Embeds `UdpHeader::deser`. -/
def UdpHeader.deser (buf : List Nat) : UdpHeader :=
  { origin :=
      { ip := { a := buf.getD 0 0, b := buf.getD 1 0
              , c := buf.getD 2 0, d := buf.getD 3 0 }
      , port := 256 * buf.getD 4 0 + buf.getD 5 0 }
  , len := 256 * buf.getD 6 0 + buf.getD 7 0 }

/-- Socket status register values used by the UDP layer. -/
inductive SocketStatus where
  | Closed
  | Init
  | Udp
deriving DecidableEq, Repr

/-- Socket commands the UDP layer issues. -/
inductive SocketCommand where
  | Open
  | Close
  | Recv
  | Send
deriving DecidableEq, Repr

/-- Socket mode protocol selector. -/
inductive Protocol where
  | Closed
  | Tcp
  | Udp
deriving DecidableEq, Repr

/-- The per-socket register file visible to the UDP layer.  Ring buffer
memory is a function from 16-bit offsets to bytes. -/
structure Socket where
  rx_rsr : Nat
  rx_rd : Nat
  tx_fsr : Nat
  tx_wr : Nat
  sr : SocketStatus
  port : Nat
  proto : Protocol
  dest : SocketAddrV4
  rx_mem : Nat → Nat
  tx_mem : Nat → Nat

/-- 16-bit register well-formedness: hardware registers hold `u16` values. -/
def Socket.WF (st : Socket) : Prop :=
  st.rx_rsr < 65536 ∧ st.rx_rd < 65536 ∧ st.tx_fsr < 65536 ∧ st.tx_wr < 65536

/-- Read one byte of buffer memory at a 16-bit offset. -/
def rdByte (m : Nat → Nat) (i : Nat) : Nat := m (i % 65536) % 256

/-- Read `n` consecutive bytes starting at `ptr` (wrapping), as
`Registers::sn_rx_buf` / `sn_tx_buf` do. -/
def rdBuf (m : Nat → Nat) (ptr n : Nat) : List Nat :=
  (List.range n).map (fun i => rdByte m (ptr + i))

/-- Write a list of bytes into buffer memory starting at `ptr` (wrapping),
as `Registers::set_sn_tx_buf` does. -/
def wrBuf (m : Nat → Nat) (ptr : Nat) : List Nat → (Nat → Nat)
  | [] => m
  | b :: rest => wrBuf (fun i => if i = ptr % 65536 then b % 256 else m i) (ptr + 1) rest

/-- A register write or command issued through the transport.  Pure
register/buffer reads are not effects; status polls are recorded because
the bind sequence is specified in terms of them. -/
inductive Effect where
  | writeRxRd (v : Nat)
  | writeTxWr (v : Nat)
  | writeTxBuf (ptr : Nat) (data : List Nat)
  | cmd (c : SocketCommand)
  | writeDest (a : SocketAddrV4)
  | writePort (p : Nat)
  | writeMode (p : Protocol)
  | pollSr (s : SocketStatus)
deriving DecidableEq, Repr

/-- Errors of the high-level crate (`w5500_hl::Error`).  Transport errors
are opaque (`other`); the embedding's transport is infallible, but caller
bodies may still return any error. -/
inductive HlError where
  | wouldBlock
  | unexpectedEof
  | outOfMemory
  | other (code : Nat)
deriving DecidableEq, Repr

/-- Embeds `Udp::udp_recv_from`.  Returns (read size, origin, copied
bytes) or `WouldBlock`, the new register state, and the effect trace. -/
def udp_recv_from (st : Socket) (bufLen : Nat) :
    Except HlError (Nat × SocketAddrV4 × List Nat) × Socket × List Effect :=
  if st.rx_rsr < UdpHeader.LEN then (.error .wouldBlock, st, [])
  else
    let rsr : Nat := st.rx_rsr - UdpHeader.LEN
    let header : UdpHeader := UdpHeader.deser (rdBuf st.rx_mem st.rx_rd UdpHeader.LEN)
    let ptr1 : Nat := (st.rx_rd + UdpHeader.LEN) % 65536
    if rsr < header.len then (.error .wouldBlock, st, [])
    else
      let read_size : Nat := min header.len (min bufLen 65535)
      let data : List Nat := if read_size ≠ 0 then rdBuf st.rx_mem ptr1 read_size else []
      let ptr2 : Nat := (ptr1 + header.len) % 65536
      (.ok (read_size, header.origin, data),
       { st with rx_rd := ptr2 },
       [.writeRxRd ptr2, .cmd .Recv])

/-- Embeds `Udp::udp_peek_from`: same framing as `udp_recv_from` but with
no read-pointer commit and no `Recv` command. -/
def udp_peek_from (st : Socket) (bufLen : Nat) :
    Except HlError (Nat × UdpHeader × List Nat) × Socket × List Effect :=
  if st.rx_rsr < UdpHeader.LEN then (.error .wouldBlock, st, [])
  else
    let rsr : Nat := st.rx_rsr - UdpHeader.LEN
    let header : UdpHeader := UdpHeader.deser (rdBuf st.rx_mem st.rx_rd UdpHeader.LEN)
    let ptr1 : Nat := (st.rx_rd + UdpHeader.LEN) % 65536
    if rsr < header.len then (.error .wouldBlock, st, [])
    else
      let read_size : Nat := min header.len (min bufLen 65535)
      let data : List Nat := if read_size ≠ 0 then rdBuf st.rx_mem ptr1 read_size else []
      (.ok (read_size, header, data), st, [])

/-- Embeds `Udp::udp_peek_from_header`: parse the next datagram's header
without consuming anything. -/
def udp_peek_from_header (st : Socket) :
    Except HlError UdpHeader × Socket × List Effect :=
  if st.rx_rsr < UdpHeader.LEN then (.error .wouldBlock, st, [])
  else (.ok (UdpHeader.deser (rdBuf st.rx_mem st.rx_rd UdpHeader.LEN)), st, [])

/-- Embeds `Udp::udp_send`: write `min(len, free)` bytes, advance the
transmit write pointer, issue `Send` — all skipped when the count is 0. -/
def udp_send (st : Socket) (data : List Nat) : Nat × Socket × List Effect :=
  let data_len : Nat := min data.length 65535
  let tx_bytes : Nat := min data_len st.tx_fsr
  if tx_bytes = 0 then (tx_bytes, st, [])
  else
    let sent := data.take tx_bytes
    let newWr := (st.tx_wr + tx_bytes) % 65536
    (tx_bytes,
     { st with tx_mem := wrBuf st.tx_mem st.tx_wr sent, tx_wr := newWr },
     [.writeTxBuf st.tx_wr sent, .writeTxWr newWr, .cmd .Send])

/-- Embeds `Udp::udp_send_if_free`: transmit only when the whole payload
fits in the free transmit space; early-return 0 when the length does not
fit in a `u16`. -/
def udp_send_if_free (st : Socket) (data : List Nat) : Nat × Socket × List Effect :=
  if 65535 < data.length then (0, st, [])
  else if data.length ≤ st.tx_fsr then
    let newWr := (st.tx_wr + data.length) % 65536
    (data.length,
     { st with tx_mem := wrBuf st.tx_mem st.tx_wr data, tx_wr := newWr },
     [.writeTxBuf st.tx_wr data, .writeTxWr newWr, .cmd .Send])
  else (data.length, st, [])

/-- The cursor state of a streaming reader scope (the fields of
`TcpReader` constructed by `udp_reader`: snapshot `head_ptr`, snapshot
`tail_ptr`, current `ptr`, and the `unread` flag). -/
structure Reader where
  head_ptr : Nat
  tail_ptr : Nat
  ptr : Nat
  unread : Bool
deriving DecidableEq, Repr

/-- The reader scope `udp_reader` constructs (lines 676-692 of
`src/hl/src/udp.rs`), together with the parsed header: `head_ptr` is the
hardware read pointer plus the 8-byte header, `tail_ptr` bounds the scope
to `min(declared length, available bytes after the header)`.  Only
meaningful when `8 ≤ st.rx_rsr` (checked by `udp_reader`). -/
def udpReaderScope (st : Socket) : Reader × UdpHeader :=
  let rsr := st.rx_rsr - UdpHeader.LEN
  let header := UdpHeader.deser (rdBuf st.rx_mem st.rx_rd UdpHeader.LEN)
  let head := (st.rx_rd + UdpHeader.LEN) % 65536
  ({ head_ptr := head
   , tail_ptr := (head + min header.len rsr) % 65536
   , ptr := head
   , unread := false }, header)

/-- Embeds `Udp::udp_reader`.  The caller body is an arbitrary function on
the reader cursor (the real body mutates only `ptr` and `unread` through
the `Read`/`Seek` API; theorems add that as a hypothesis where needed).
On body error the `?` operator returns before the commit check; on
success, the commit runs unless `unread` was set. -/
def udp_reader {T : Type} (st : Socket)
    (body : Reader → Except HlError T × Reader) :
    Except HlError T × Socket × List Effect :=
  if st.rx_rsr < UdpHeader.LEN then (.error .wouldBlock, st, [])
  else
    match body (udpReaderScope st).1 with
    | (.error e, _) => (.error e, st, [])
    | (.ok t, r1) =>
      if r1.unread then (.ok t, st, [])
      else
        (.ok t, { st with rx_rd := r1.tail_ptr },
         [.writeRxRd r1.tail_ptr, .cmd .Recv])

/-- The remaining length of a reader scope: wrapping distance from `ptr`
to `tail_ptr`. -/
def Reader.remain (r : Reader) : Nat := (r.tail_ptr + 65536 - r.ptr % 65536) % 65536

/-- The total length of a reader scope: wrapping distance from `head_ptr`
to `tail_ptr`. -/
def Reader.streamLen (r : Reader) : Nat :=
  (r.tail_ptr + 65536 - r.head_ptr % 65536) % 65536

/-- Modelled from the spec: `read` of the StreamReader (`TcpReader::read`
in the crate root, not under `src/`): copy `min(len(dst), remaining)`
bytes starting at `ptr`, advance `ptr` by that amount. -/
def Reader.read (r : Reader) (mem : Nat → Nat) (bufLen : Nat) : List Nat × Reader :=
  let n := min bufLen r.remain
  (rdBuf mem r.ptr n, { r with ptr := (r.ptr + n) % 65536 })

/-- Modelled from the spec: `seek` of the StreamReader (`TcpReader::seek`
in the crate root, not under `src/`): reposition `ptr` within
`[head_ptr, tail_ptr]`; seeking outside the range fails without side
effects.  `off` is the target offset from the start of the scope. -/
def Reader.seek (r : Reader) (off : Nat) : Except HlError Reader :=
  if off ≤ r.streamLen then .ok { r with ptr := (r.head_ptr + off) % 65536 }
  else .error .unexpectedEof

/-- The cursor state of a streaming writer scope (the fields of `Writer`
constructed by `udp_writer`), plus the transmit buffer contents: the real
body writes bytes through the transport immediately, so aborting a scope
does not undo them. -/
structure Writer where
  head_ptr : Nat
  tail_ptr : Nat
  ptr : Nat
  abort : Bool
  mem : Nat → Nat

/-- The writer scope `udp_writer` and `udp_writer_to` construct:
`head_ptr` is the hardware transmit write pointer, `tail_ptr` adds the
free size snapshot. -/
def writerScope (st : Socket) : Writer :=
  { head_ptr := st.tx_wr
  , tail_ptr := (st.tx_wr + st.tx_fsr) % 65536
  , ptr := st.tx_wr
  , abort := false
  , mem := st.tx_mem }

/-- Embeds `Udp::udp_writer`.  On body error the `?` operator returns
before the commit check; on success the commit (write pointer update and
`Send` command) runs unless `abort` was set.  Buffer bytes the body wrote
persist in every case. -/
def udp_writer {T : Type} (st : Socket)
    (body : Writer → Except HlError T × Writer) :
    Except HlError T × Socket × List Effect :=
  match body (writerScope st) with
  | (.error e, w1) => (.error e, { st with tx_mem := w1.mem }, [])
  | (.ok t, w1) =>
    if w1.abort then (.ok t, { st with tx_mem := w1.mem }, [])
    else
      (.ok t, { st with tx_mem := w1.mem, tx_wr := w1.ptr },
       [.writeTxWr w1.ptr, .cmd .Send])

/-- Embeds `Udp::udp_writer_to`: like `udp_writer` but the commit also
programs the destination register first. -/
def udp_writer_to {T : Type} (st : Socket) (addr : SocketAddrV4)
    (body : Writer → Except HlError T × Writer) :
    Except HlError T × Socket × List Effect :=
  match body (writerScope st) with
  | (.error e, w1) => (.error e, { st with tx_mem := w1.mem }, [])
  | (.ok t, w1) =>
    if w1.abort then (.ok t, { st with tx_mem := w1.mem }, [])
    else
      (.ok t, { st with tx_mem := w1.mem, tx_wr := w1.ptr, dest := addr },
       [.writeDest addr, .writeTxWr w1.ptr, .cmd .Send])

/-- Modelled from the spec: the hardware's reaction to socket commands
(the transport and chip are external collaborators, not under `src/`).
Per the spec's lifecycle section, status always transitions to `Closed`
after `Close` and to the UDP-open state after `Open` with the UDP mode
set. -/
def applyCmd (st : Socket) : SocketCommand → Socket
  | .Close => { st with sr := .Closed }
  | .Open => { st with sr := if st.proto = Protocol.Udp then .Udp else .Init }
  | .Recv => st
  | .Send => st

/-- The busy-wait loop of `udp_bind`: poll the status register until it
reads `target`.  The register state never changes during the loop, so the
loop is given explicit fuel; each poll is recorded. -/
def pollSr (st : Socket) (target : SocketStatus) : Nat → Option (List Effect)
  | 0 => none
  | Nat.succ fuel =>
    if st.sr = target then some [.pollSr st.sr]
    else (pollSr st target fuel).map (fun tr => .pollSr st.sr :: tr)

/-- Embeds `Udp::udp_bind`: close, poll until `Closed`, program the local
port and the UDP mode, open, poll until `Udp`. -/
def udp_bind (st : Socket) (prt fuel : Nat) : Option (Socket × List Effect) :=
  let st1 := applyCmd st .Close
  match pollSr st1 .Closed fuel with
  | none => none
  | some tr1 =>
    let st2 := { st1 with port := prt }
    let st3 := { st2 with proto := Protocol.Udp }
    let st4 := applyCmd st3 .Open
    match pollSr st4 .Udp fuel with
    | none => none
    | some tr2 =>
      some (st4,
        Effect.cmd .Close :: tr1 ++
          Effect.writePort prt :: Effect.writeMode Protocol.Udp ::
            Effect.cmd .Open :: tr2)

/-! ## Concrete fixtures used by witnesses -/

/-- The spec's concrete origin address `203.0.113.1:9000`. -/
def addr0 : SocketAddrV4 :=
  { ip := { a := 203, b := 0, c := 113, d := 1 }, port := 9000 }

/-- Receive memory holding one queued datagram at offset 0: header
`(203.0.113.1:9000, len = 16)` followed by payload bytes. -/
def mem0 : Nat → Nat := fun i =>
  if i = 0 then 203 else if i = 1 then 0
  else if i = 2 then 113 else if i = 3 then 1
  else if i = 4 then 35 else if i = 5 then 40
  else if i = 6 then 0 else if i = 7 then 16
  else i % 256

/-- A socket with one complete 16-byte datagram queued
(`rx_rsr = 8 + 16 = 24`). -/
def st0 : Socket :=
  { rx_rsr := 24, rx_rd := 0, tx_fsr := 100, tx_wr := 0, sr := .Udp
  , port := 8080, proto := .Udp, dest := addr0
  , rx_mem := mem0, tx_mem := fun _ => 0 }

/-- The same socket with the datagram only partially buffered: the header
declares 16 payload bytes but only 12 have arrived. -/
def stPartial : Socket := { st0 with rx_rsr := 20 }

/-! ## Claims -/

/-- Claim C3: for a complete queued datagram of declared length `L` and a
destination buffer shorter than `L`, `udp_recv_from` copies exactly
`bufLen` bytes, returns that count with the origin address, and advances
the hardware read pointer by `8 + L` (header plus full declared length),
then issues the `Recv` command. -/
theorem c3_truncated_recv (st : Socket) (bufLen L : Nat)
    (hwf : st.rx_rsr < 65536)
    (hrsr : UdpHeader.LEN ≤ st.rx_rsr)
    (hL : (UdpHeader.deser (rdBuf st.rx_mem st.rx_rd UdpHeader.LEN)).len = L)
    (hcomplete : L ≤ st.rx_rsr - UdpHeader.LEN)
    (hshort : bufLen < L) :
    udp_recv_from st bufLen =
      (.ok (bufLen,
            (UdpHeader.deser (rdBuf st.rx_mem st.rx_rd UdpHeader.LEN)).origin,
            rdBuf st.rx_mem ((st.rx_rd + UdpHeader.LEN) % 65536) bufLen),
       { st with rx_rd := (st.rx_rd + UdpHeader.LEN + L) % 65536 },
       [.writeRxRd ((st.rx_rd + UdpHeader.LEN + L) % 65536), .cmd .Recv]) := by
  have hLEN : UdpHeader.LEN = 8 := rfl
  have hrange : bufLen ≤ 65535 := by omega
  unfold udp_recv_from
  rw [if_neg (by omega)]
  simp only [hL]
  rw [if_neg (by omega)]
  have h1 : min L (min bufLen 65535) = bufLen := by omega
  have h2 : ((st.rx_rd + UdpHeader.LEN) % 65536 + L) % 65536
      = (st.rx_rd + UdpHeader.LEN + L) % 65536 := Nat.mod_add_mod _ _ _
  have h3 : (if bufLen ≠ 0 then
        rdBuf st.rx_mem ((st.rx_rd + UdpHeader.LEN) % 65536) bufLen else [])
      = rdBuf st.rx_mem ((st.rx_rd + UdpHeader.LEN) % 65536) bufLen := by
    by_cases h : bufLen = 0
    · subst h; simp [rdBuf]
    · simp [h]
  simp only [h1, h2, h3]

/-- Claim C3 witness: the spec's concrete scenario — a datagram of
declared length 16 received into a 10-byte buffer returns 10 bytes and
the origin `203.0.113.1:9000`, and the read pointer advances by exactly
`8 + 16 = 24`. -/
theorem c3_truncated_recv_witness :
    (10 : Nat) < 16 ∧
    (st0.rx_rd + UdpHeader.LEN + 16) % 65536 = 24 ∧
    udp_recv_from st0 10 =
      (.ok (10,
            (UdpHeader.deser (rdBuf st0.rx_mem st0.rx_rd UdpHeader.LEN)).origin,
            rdBuf st0.rx_mem ((st0.rx_rd + UdpHeader.LEN) % 65536) 10),
       { st0 with rx_rd := (st0.rx_rd + UdpHeader.LEN + 16) % 65536 },
       [.writeRxRd ((st0.rx_rd + UdpHeader.LEN + 16) % 65536), .cmd .Recv]) :=
  ⟨by decide, by decide,
   c3_truncated_recv st0 10 16 (by decide) (by decide) (by decide)
     (by decide) (by decide)⟩

/-- Claim C5: `udp_recv_from` and `udp_peek_from` return `WouldBlock`
exactly when fewer than 8 bytes are buffered or the declared payload
length exceeds the bytes available after the header; in every such case
the register state is unchanged and no register write or command is
issued. -/
theorem c5_wouldblock_iff (st : Socket) (bufLen : Nat) :
    ((udp_recv_from st bufLen).1 = .error .wouldBlock ↔
       (st.rx_rsr < UdpHeader.LEN ∨
        st.rx_rsr - UdpHeader.LEN <
          (UdpHeader.deser (rdBuf st.rx_mem st.rx_rd UdpHeader.LEN)).len)) ∧
    ((udp_peek_from st bufLen).1 = .error .wouldBlock ↔
       (st.rx_rsr < UdpHeader.LEN ∨
        st.rx_rsr - UdpHeader.LEN <
          (UdpHeader.deser (rdBuf st.rx_mem st.rx_rd UdpHeader.LEN)).len)) ∧
    ((st.rx_rsr < UdpHeader.LEN ∨
        st.rx_rsr - UdpHeader.LEN <
          (UdpHeader.deser (rdBuf st.rx_mem st.rx_rd UdpHeader.LEN)).len) →
       udp_recv_from st bufLen = (.error .wouldBlock, st, []) ∧
       udp_peek_from st bufLen = (.error .wouldBlock, st, [])) := by
  by_cases h1 : st.rx_rsr < UdpHeader.LEN
  · unfold udp_recv_from udp_peek_from
    simp [h1]
  · by_cases h2 : st.rx_rsr - UdpHeader.LEN <
        (UdpHeader.deser (rdBuf st.rx_mem st.rx_rd UdpHeader.LEN)).len
    · unfold udp_recv_from udp_peek_from
      simp [h1, h2]
    · unfold udp_recv_from udp_peek_from
      simp [h1, h2]

/-- Claim C5 witness: with the datagram only partially buffered
(declared length 16, 12 payload bytes available), both receive and peek
fail with `WouldBlock`, leaving the state unchanged and the trace empty. -/
theorem c5_wouldblock_iff_witness :
    (stPartial.rx_rsr < UdpHeader.LEN ∨
      stPartial.rx_rsr - UdpHeader.LEN <
        (UdpHeader.deser
          (rdBuf stPartial.rx_mem stPartial.rx_rd UdpHeader.LEN)).len) ∧
    udp_recv_from stPartial 10 = (.error .wouldBlock, stPartial, []) ∧
    udp_peek_from stPartial 10 = (.error .wouldBlock, stPartial, []) :=
  ⟨by decide, (c5_wouldblock_iff stPartial 10).2.2 (by decide)⟩

/-- Claim C7: the peek operations never write any register (state
unchanged, empty effect trace); hence a second peek on the resulting
state returns the same answer, and a successful peek followed by
`udp_recv_from` delivers exactly the bytes and origin the peek observed. -/
theorem c7_peek_pure (st : Socket) (bufLen : Nat) :
    (udp_peek_from st bufLen).2.1 = st ∧
    (udp_peek_from st bufLen).2.2 = [] ∧
    (udp_peek_from_header st).2.1 = st ∧
    (udp_peek_from_header st).2.2 = [] ∧
    (udp_peek_from ((udp_peek_from st bufLen).2.1) bufLen).1 =
      (udp_peek_from st bufLen).1 ∧
    (∀ n hdr data, (udp_peek_from st bufLen).1 = Except.ok (n, hdr, data) →
        (udp_recv_from st bufLen).1 = Except.ok (n, hdr.origin, data)) := by
  unfold udp_peek_from udp_peek_from_header udp_recv_from
  by_cases h1 : st.rx_rsr < UdpHeader.LEN
  · simp [h1]
  · by_cases h2 : st.rx_rsr - UdpHeader.LEN <
        (UdpHeader.deser (rdBuf st.rx_mem st.rx_rd UdpHeader.LEN)).len
    · simp [h1, h2]
    · simp only [h1, h2, if_neg, if_false, ite_false]
      refine ⟨trivial, trivial, trivial, trivial, trivial, ?_⟩
      intro n hdr data h
      simp only [Except.ok.injEq, Prod.mk.injEq] at h
      obtain ⟨hn, hhdr, hdata⟩ := h
      subst hn; subst hhdr; subst hdata
      rfl

/-- Claim C7 witness: on the one-datagram fixture, a peek leaves the state
unchanged with no effects, and the subsequent receive returns exactly the
peeked bytes and origin. -/
theorem c7_peek_pure_witness :
    (udp_peek_from st0 10).2.1 = st0 ∧
    (udp_peek_from st0 10).2.2 = [] ∧
    (udp_recv_from st0 10).1 =
      Except.ok (10,
        (UdpHeader.deser (rdBuf st0.rx_mem st0.rx_rd UdpHeader.LEN)).origin,
        rdBuf st0.rx_mem ((st0.rx_rd + UdpHeader.LEN) % 65536) 10) := by
  have h := c7_peek_pure st0 10
  exact ⟨h.1, h.2.1,
    h.2.2.2.2.2 10 (UdpHeader.deser (rdBuf st0.rx_mem st0.rx_rd UdpHeader.LEN))
      (rdBuf st0.rx_mem ((st0.rx_rd + UdpHeader.LEN) % 65536) 10) (by rfl)⟩

/-- Claim C10: receiving a complete queued datagram into a zero-length
buffer succeeds with `(0, origin)`, copies nothing, and still advances
the read pointer past the whole datagram (`8 + declared length`) and
issues the `Recv` command — a discard of the next datagram. -/
theorem c10_zero_buffer_discard (st : Socket)
    (hrsr : UdpHeader.LEN ≤ st.rx_rsr)
    (hcomplete : (UdpHeader.deser (rdBuf st.rx_mem st.rx_rd UdpHeader.LEN)).len
        ≤ st.rx_rsr - UdpHeader.LEN) :
    udp_recv_from st 0 =
      (.ok (0,
            (UdpHeader.deser (rdBuf st.rx_mem st.rx_rd UdpHeader.LEN)).origin,
            []),
       { st with rx_rd := (st.rx_rd + UdpHeader.LEN +
           (UdpHeader.deser (rdBuf st.rx_mem st.rx_rd UdpHeader.LEN)).len) % 65536 },
       [.writeRxRd ((st.rx_rd + UdpHeader.LEN +
           (UdpHeader.deser (rdBuf st.rx_mem st.rx_rd UdpHeader.LEN)).len) % 65536),
        .cmd .Recv]) := by
  unfold udp_recv_from
  rw [if_neg (by omega)]
  rw [if_neg (by omega)]
  have h1 : min (UdpHeader.deser (rdBuf st.rx_mem st.rx_rd UdpHeader.LEN)).len
      (min 0 65535) = 0 := by omega
  have h2 : ((st.rx_rd + UdpHeader.LEN) % 65536 +
        (UdpHeader.deser (rdBuf st.rx_mem st.rx_rd UdpHeader.LEN)).len) % 65536
      = (st.rx_rd + UdpHeader.LEN +
          (UdpHeader.deser (rdBuf st.rx_mem st.rx_rd UdpHeader.LEN)).len) % 65536 :=
    Nat.mod_add_mod _ _ _
  simp only [h1, h2]
  simp

/-- Claim C10 witness: a receive on the one-datagram fixture into an empty
buffer returns `(0, origin, no bytes)` and advances the read pointer by
24. -/
theorem c10_zero_buffer_discard_witness :
    UdpHeader.LEN ≤ st0.rx_rsr ∧
    udp_recv_from st0 0 =
      (.ok (0,
            (UdpHeader.deser (rdBuf st0.rx_mem st0.rx_rd UdpHeader.LEN)).origin,
            []),
       { st0 with rx_rd := (st0.rx_rd + UdpHeader.LEN +
           (UdpHeader.deser (rdBuf st0.rx_mem st0.rx_rd UdpHeader.LEN)).len) % 65536 },
       [.writeRxRd ((st0.rx_rd + UdpHeader.LEN +
           (UdpHeader.deser (rdBuf st0.rx_mem st0.rx_rd UdpHeader.LEN)).len) % 65536),
        .cmd .Recv]) :=
  ⟨by decide, c10_zero_buffer_discard st0 (by decide) (by decide)⟩

/-- Claim C1: a reader scope whose body completes without error commits,
when `unread` was not set, by writing exactly the snapshot `tail_ptr`
(independent of the body's final read position) to the hardware read
pointer register and then issuing the `Recv` command; when `unread` was
set, neither register is written and the state is unchanged.  The
hypothesis `htail` records that the real `Read`/`Seek` API never moves
the scope's `tail_ptr`. -/
theorem c1_reader_commit {T : Type} (st : Socket)
    (body : Reader → Except HlError T × Reader) (t : T) (r1 : Reader)
    (hrsr : UdpHeader.LEN ≤ st.rx_rsr)
    (hbody : body (udpReaderScope st).1 = (.ok t, r1))
    (htail : r1.tail_ptr = (udpReaderScope st).1.tail_ptr) :
    (r1.unread = false →
      udp_reader st body =
        (.ok t, { st with rx_rd := (udpReaderScope st).1.tail_ptr },
         [.writeRxRd (udpReaderScope st).1.tail_ptr, .cmd .Recv])) ∧
    (r1.unread = true → udp_reader st body = (.ok t, st, [])) := by
  unfold udp_reader
  rw [if_neg (by omega), hbody]
  constructor
  · intro hu; simp [hu, htail]
  · intro hu; simp [hu]

/-- Claim C1 witness: a body that reads nothing and succeeds commits the
snapshot `tail_ptr` and issues `Recv` on the one-datagram fixture. -/
theorem c1_reader_commit_witness :
    UdpHeader.LEN ≤ st0.rx_rsr ∧
    udp_reader st0 (fun r => ((Except.ok 0 : Except HlError Nat), r)) =
      (.ok 0, { st0 with rx_rd := (udpReaderScope st0).1.tail_ptr },
       [.writeRxRd (udpReaderScope st0).1.tail_ptr, .cmd .Recv]) :=
  ⟨by decide,
   (c1_reader_commit st0 (fun r => ((Except.ok 0 : Except HlError Nat), r))
      0 (udpReaderScope st0).1 (by decide) rfl rfl).1 rfl⟩

/-- Caller body used by the C2 counterexample: it fails without setting
the `unread` flag. -/
def c2Body : Reader → Except HlError Nat × Reader :=
  fun r => (.error (.other 3), r)

/-- Claim C2 counterexample: a body that fails with the `unread` flag not
set does not trigger a commit: `udp_reader` propagates the error with an
empty effect trace — the read pointer register and command register are
never written, contradicting the claim that the commit still runs before
the error is re-raised. -/
theorem c2_counterexample :
    (c2Body (udpReaderScope st0).1).2.unread = false ∧
    udp_reader st0 c2Body = (.error (.other 3), st0, []) :=
  ⟨rfl, by rfl⟩

/-- Claim C2 (amended): when the caller body fails, `udp_reader` and
`udp_writer` propagate the error immediately and skip the commit check
entirely: no pointer register write and no command, regardless of the
unread/abort flag (the writer merely keeps whatever bytes the body
already placed in the transmit buffer). -/
theorem c2_error_no_commit {T : Type} (st : Socket)
    (rbody : Reader → Except HlError T × Reader)
    (wbody : Writer → Except HlError T × Writer)
    (e1 e2 : HlError) (r1 : Reader) (w1 : Writer)
    (hrsr : UdpHeader.LEN ≤ st.rx_rsr)
    (hr : rbody (udpReaderScope st).1 = (.error e1, r1))
    (hw : wbody (writerScope st) = (.error e2, w1)) :
    udp_reader st rbody = (.error e1, st, []) ∧
    udp_writer st wbody = (.error e2, { st with tx_mem := w1.mem }, []) := by
  constructor
  · unfold udp_reader
    rw [if_neg (by omega), hr]
  · unfold udp_writer
    rw [hw]

/-- Claim C2 witness for the amended statement: failing bodies on the
fixture socket propagate their errors with empty effect traces through
both the reader and the writer scope. -/
theorem c2_error_no_commit_witness :
    UdpHeader.LEN ≤ st0.rx_rsr ∧
    udp_reader st0 (fun r => ((Except.error (.other 3) : Except HlError Nat), r)) =
      (.error (.other 3), st0, []) ∧
    udp_writer st0 (fun w => ((Except.error (.other 4) : Except HlError Nat), w)) =
      (.error (.other 4), { st0 with tx_mem := (writerScope st0).mem }, []) := by
  have h := c2_error_no_commit st0
    (fun r => ((Except.error (.other 3) : Except HlError Nat), r))
    (fun w => ((Except.error (.other 4) : Except HlError Nat), w))
    (.other 3) (.other 4) (udpReaderScope st0).1 (writerScope st0)
    (by decide) rfl rfl
  exact ⟨by decide, h.1, h.2⟩

/-- Claim C8: a writer body that completes normally after setting the
`abort` flag commits nothing — the transmit write pointer register is not
written, no `Send` command is issued, and (for `udp_writer_to`) the
destination register is untouched — even though the transmit buffer
memory may already hold bytes the body wrote. -/
theorem c8_writer_abort {T : Type} (st : Socket) (addr : SocketAddrV4)
    (body : Writer → Except HlError T × Writer) (t : T) (w1 : Writer)
    (hbody : body (writerScope st) = (.ok t, w1))
    (habort : w1.abort = true) :
    udp_writer st body = (.ok t, { st with tx_mem := w1.mem }, []) ∧
    udp_writer_to st addr body = (.ok t, { st with tx_mem := w1.mem }, []) := by
  constructor
  · unfold udp_writer
    rw [hbody]
    simp [habort]
  · unfold udp_writer_to
    rw [hbody]
    simp [habort]

/-- Claim C8 witness: a body that sets `abort` and succeeds leaves all
registers of the fixture socket unchanged through both writer entry
points. -/
theorem c8_writer_abort_witness :
    udp_writer st0
        (fun w => ((Except.ok 0 : Except HlError Nat), { w with abort := true })) =
      (.ok 0,
       { st0 with tx_mem := ({ writerScope st0 with abort := true } : Writer).mem },
       []) ∧
    udp_writer_to st0 addr0
        (fun w => ((Except.ok 0 : Except HlError Nat), { w with abort := true })) =
      (.ok 0,
       { st0 with tx_mem := ({ writerScope st0 with abort := true } : Writer).mem },
       []) :=
  c8_writer_abort st0 addr0
    (fun w => ((Except.ok 0 : Except HlError Nat), { w with abort := true }))
    0 { writerScope st0 with abort := true } rfl rfl

/-- A 10-byte payload for the C6 counterexample. -/
def data10 : List Nat := List.replicate 10 7

/-- A socket whose transmit buffer has only 5 free bytes. -/
def stSmallTx : Socket := { st0 with tx_fsr := 5 }

/-- Claim C6 counterexample: with 5 bytes of free transmit space and a
10-byte payload, `udp_send_if_free` writes nothing and issues no command,
but returns 10 — the requested length — not 0 as the claim states. -/
theorem c6_counterexample :
    udp_send_if_free stSmallTx data10 = (10, stSmallTx, []) ∧ (10 : Nat) ≠ 0 :=
  ⟨by rfl, by decide⟩

/-- Claim C6 (amended): `udp_send` writes `min(requested length, free
space)` bytes into the transmit buffer and returns that count (all
register writes are skipped when the count is 0); `udp_send_if_free`,
when the requested length exceeds the free space, writes nothing and
issues no `Send` command, returning the requested length unchanged
(returning 0 only when the length does not fit in a `u16`). -/
theorem c6_send_policy (st : Socket) (data : List Nat)
    (hwf : st.tx_fsr < 65536) :
    (udp_send st data).1 = min data.length st.tx_fsr ∧
    (0 < min data.length st.tx_fsr →
       udp_send st data =
         (min data.length st.tx_fsr,
          { st with
              tx_mem := wrBuf st.tx_mem st.tx_wr
                (data.take (min data.length st.tx_fsr)),
              tx_wr := (st.tx_wr + min data.length st.tx_fsr) % 65536 },
          [.writeTxBuf st.tx_wr (data.take (min data.length st.tx_fsr)),
           .writeTxWr ((st.tx_wr + min data.length st.tx_fsr) % 65536),
           .cmd .Send])) ∧
    (min data.length st.tx_fsr = 0 → udp_send st data = (0, st, [])) ∧
    (data.length ≤ 65535 → st.tx_fsr < data.length →
       udp_send_if_free st data = (data.length, st, [])) ∧
    (65535 < data.length → udp_send_if_free st data = (0, st, [])) := by
  have hmin : min (min data.length 65535) st.tx_fsr = min data.length st.tx_fsr := by
    omega
  refine ⟨?_, ?_, ?_, ?_, ?_⟩
  · unfold udp_send
    simp only [hmin]
    by_cases h : min data.length st.tx_fsr = 0
    · simp [h]
    · simp [h]
  · intro h
    unfold udp_send
    simp only [hmin]
    rw [if_neg (by omega)]
  · intro h
    unfold udp_send
    simp only [hmin]
    rw [if_pos h]
    simp [h]
  · intro h1 h2
    unfold udp_send_if_free
    rw [if_neg (by omega), if_neg (by omega)]
  · intro h1
    unfold udp_send_if_free
    rw [if_pos (by omega)]

/-- Claim C6 witness: on a socket with 5 free bytes, `udp_send` of a
10-byte payload returns `min 10 5 = 5`, and `udp_send_if_free` writes
nothing and returns the requested length 10. -/
theorem c6_send_policy_witness :
    stSmallTx.tx_fsr < 65536 ∧
    (udp_send stSmallTx data10).1 = min data10.length stSmallTx.tx_fsr ∧
    udp_send_if_free stSmallTx data10 = (data10.length, stSmallTx, []) := by
  have h := c6_send_policy stSmallTx data10 (by decide)
  exact ⟨by decide, h.1, h.2.2.2.1 (by decide) (by decide)⟩

/-- Claim C9: `udp_bind` performs exactly this register sequence, in
order: `Close` command, status poll reading `Closed`, local port write,
mode write selecting UDP, `Open` command, status poll reading `Udp` — and
returns success with the socket in the UDP-open state.  The hardware's
status transitions after `Close`/`Open` follow the spec's liveness
guarantee (`applyCmd`). -/
theorem c9_bind_sequence (st : Socket) (prt fuel : Nat) (hfuel : 1 ≤ fuel) :
    udp_bind st prt fuel =
      some ({ st with sr := .Udp, port := prt, proto := .Udp },
            [.cmd .Close, .pollSr .Closed, .writePort prt,
             .writeMode .Udp, .cmd .Open, .pollSr .Udp]) := by
  obtain ⟨k, rfl⟩ : ∃ k, fuel = k + 1 := ⟨fuel - 1, by omega⟩
  unfold udp_bind applyCmd pollSr
  simp

/-- Claim C9 witness: binding the fixture socket to port 8080 with one
unit of poll fuel produces exactly the six-step register sequence. -/
theorem c9_bind_sequence_witness :
    (1 : Nat) ≤ 1 ∧
    udp_bind st0 8080 1 =
      some ({ st0 with sr := .Udp, port := 8080, proto := .Udp },
            [.cmd .Close, .pollSr .Closed, .writePort 8080,
             .writeMode .Udp, .cmd .Open, .pollSr .Udp]) :=
  ⟨by decide, c9_bind_sequence st0 8080 1 (by decide)⟩

/-- Reading at a wrapped pointer reads the same bytes as at the raw
pointer: `rdByte` reduces its offset modulo the 16-bit space. -/
theorem rdByte_mod (m : Nat → Nat) (p i : Nat) :
    rdByte m (p % 65536 + i) = rdByte m (p + i) := by
  unfold rdByte
  rw [Nat.mod_add_mod]

/-- `rdBuf` is insensitive to wrapping of its start pointer. -/
theorem rdBuf_mod (m : Nat → Nat) (p n : Nat) :
    rdBuf m (p % 65536) n = rdBuf m p n := by
  unfold rdBuf
  congr 1
  funext i
  exact rdByte_mod m p i

/-- Claim C4: with at least a header buffered, the reader scope created
by `udp_reader` has `head_ptr` = hardware read pointer + 8 and
`tail_ptr` = `head_ptr` + min(declared length, bytes available after the
header); when two complete datagrams of lengths `L1` and `L2` are queued
back-to-back the scope is exactly `L1` wide, any read from any in-scope
cursor position returns only bytes strictly inside the first datagram —
its accessed addresses are disjoint from the second datagram's header
bytes — and any seek past offset `L1` fails. -/
theorem c4_scope_isolation (st : Socket) (L1 L2 : Nat)
    (hlen : (UdpHeader.deser (rdBuf st.rx_mem st.rx_rd UdpHeader.LEN)).len = L1)
    (hrsr : st.rx_rsr = UdpHeader.LEN + L1 + UdpHeader.LEN + L2)
    (hfit : UdpHeader.LEN + L1 + UdpHeader.LEN + L2 < 65536) :
    (udpReaderScope st).1.head_ptr = (st.rx_rd + UdpHeader.LEN) % 65536 ∧
    (udpReaderScope st).1.tail_ptr =
      ((udpReaderScope st).1.head_ptr +
        min L1 (st.rx_rsr - UdpHeader.LEN)) % 65536 ∧
    (udpReaderScope st).1.streamLen = L1 ∧
    (∀ d i j, d + i < L1 → j < UdpHeader.LEN →
       ((udpReaderScope st).1.head_ptr + d + i) % 65536 ≠
       ((udpReaderScope st).1.head_ptr + L1 + j) % 65536) ∧
    (∀ r : Reader, r.head_ptr = (udpReaderScope st).1.head_ptr →
       r.tail_ptr = (udpReaderScope st).1.tail_ptr →
       ∀ d bufLen, d ≤ L1 → r.ptr = (r.head_ptr + d) % 65536 →
         (r.read st.rx_mem bufLen).1 =
           rdBuf st.rx_mem (r.head_ptr + d) (min bufLen (L1 - d))) ∧
    (∀ off, L1 < off → ((udpReaderScope st).1.seek off).isOk = false) := by
  have hLEN : UdpHeader.LEN = 8 := rfl
  rw [hLEN] at hrsr hfit
  have hhead : (udpReaderScope st).1.head_ptr
      = (st.rx_rd + UdpHeader.LEN) % 65536 := rfl
  have htail : (udpReaderScope st).1.tail_ptr
      = ((st.rx_rd + UdpHeader.LEN) % 65536 +
          min (UdpHeader.deser (rdBuf st.rx_mem st.rx_rd UdpHeader.LEN)).len
            (st.rx_rsr - UdpHeader.LEN)) % 65536 := rfl
  have hb : min (UdpHeader.deser (rdBuf st.rx_mem st.rx_rd UdpHeader.LEN)).len
      (st.rx_rsr - UdpHeader.LEN) = L1 := by
    rw [hlen, hLEN, hrsr]
    omega
  rw [hb] at htail
  have hstream : (udpReaderScope st).1.streamLen = L1 := by
    unfold Reader.streamLen
    rw [htail, hhead, hLEN]
    omega
  have hb2 : min L1 (st.rx_rsr - UdpHeader.LEN) = L1 := by
    rw [hLEN, hrsr]
    omega
  refine ⟨hhead, ?_, hstream, ?_, ?_, ?_⟩
  · rw [htail, hhead, hb2]
  · intro d i j hdi hj
    rw [hLEN] at hj
    rw [hhead, hLEN]
    intro heq
    omega
  · intro r hh ht d bufLen hd hp
    have hrem : r.remain = L1 - d := by
      unfold Reader.remain
      rw [ht, hp, hh, htail, hhead, hLEN]
      omega
    unfold Reader.read
    rw [hrem, hp]
    show rdBuf st.rx_mem ((r.head_ptr + d) % 65536) (min bufLen (L1 - d))
      = rdBuf st.rx_mem (r.head_ptr + d) (min bufLen (L1 - d))
    exact rdBuf_mod st.rx_mem (r.head_ptr + d) (min bufLen (L1 - d))
  · intro off hoff
    unfold Reader.seek
    rw [if_neg (by rw [hstream]; omega)]
    rfl

/-- A socket with two complete datagrams queued back-to-back: the first
declares 16 payload bytes, a second (of length 4) follows at offset 24
(`rx_rsr = 8 + 16 + 8 + 4 = 36`). -/
def stTwo : Socket := { st0 with rx_rsr := 36 }

/-- Claim C4 witness: on the two-datagram fixture (L1 = 16, L2 = 4), the
scope starts past the 8-byte header and is bounded to exactly 16 bytes. -/
theorem c4_scope_isolation_witness :
    (UdpHeader.deser (rdBuf stTwo.rx_mem stTwo.rx_rd UdpHeader.LEN)).len = 16 ∧
    stTwo.rx_rsr = UdpHeader.LEN + 16 + UdpHeader.LEN + 4 ∧
    (udpReaderScope stTwo).1.head_ptr = (stTwo.rx_rd + UdpHeader.LEN) % 65536 ∧
    (udpReaderScope stTwo).1.streamLen = 16 := by
  have h := c4_scope_isolation stTwo 16 4 (by decide) (by decide) (by decide)
  exact ⟨by decide, by decide, h.1, h.2.2.1⟩

end W5500
